import Mathlib

/-!
Shallow embedding of the Stellar arbitrage contracts (arbitrage detector,
reflector oracle client, flash-loan arbitrage engines) and proofs about the
properties claimed of them.

Machine integers (`i128`) are modelled as `Int`; Rust `i128` division
truncates toward zero, which is `Int.div` (not the `/` notation, which is
Euclidean division in Lean).  Timestamps (`u64`) are modelled as `Nat`.
External collaborators (oracle contract, exchange contract, trading engine,
flash-loan provider) are modelled as explicit environment records of
functions giving the outcome of each cross-contract call.
-/

/-- Rust `i128` division: truncation toward zero. -/
def rdiv (a b : Int) : Int := Int.tdiv a b

namespace ReflectorOracleClient

/-- Embeds `ReflectorOracleClient::validate_price_deviation`
(src/contracts/src/reflector_oracle_client.rs, lines 174-188). -/
def validate_price_deviation (current_price reference_price max_deviation_bps : Int) : Bool :=
  if reference_price = 0 then false
  else decide (rdiv (|current_price - reference_price| * 10000) reference_price ≤ max_deviation_bps)

end ReflectorOracleClient

namespace ArbitrageDetector

/-- Market price record from `ExchangeInterface` (src/contracts/src/exchange_interface.rs). -/
structure MarketPrice where
  price : Int
  timestamp : Nat
deriving DecidableEq, Repr

/-- Order book from `ExchangeInterface`: lists of (price, amount). -/
structure OrderBook where
  bids : List (Int × Int)
  asks : List (Int × Int)
deriving DecidableEq, Repr

/-- Oracle price record from `ReflectorOracleClient` (src/contracts/src/reflector_oracle_client.rs). -/
structure PriceData where
  asset : String
  price : Int
  volume_24h : Int
  timestamp : Nat
  source : String
  confidence : Int
deriving DecidableEq, Repr

/-- Opportunity record from src/contracts/src/arbitrage_detector.rs. -/
structure ArbitrageOpportunity where
  asset : String
  buy_exchange : String
  sell_exchange : String
  buy_price : Int
  sell_price : Int
  available_amount : Int
  estimated_profit : Int
  confidence_score : Int
  expiry_time : Nat
deriving DecidableEq, Repr

/-- Environment of external collaborator calls made by the detector:
the oracle price per asset (`fetch_latest_price_direct` outcome), the market
price per (exchange, pair) (`get_market_price_direct` outcome), and the order
book per (exchange, pair) (`get_order_book_direct` outcome).  `none` models a
call that returned an error. -/
structure ScanEnv where
  now : Nat
  oraclePrice : String → Option PriceData
  marketPrice : String → String → Option MarketPrice
  orderBook : String → String → Option OrderBook

/-- Embeds the helper `format_pair_string` (src/contracts/src/arbitrage_detector.rs). -/
def format_pair_string (asset quote : String) : String :=
  asset ++ "/" ++ quote

/-- Embeds `ArbitrageDetector::calculate_profit`
(src/contracts/src/arbitrage_detector.rs, lines 121-170): taker fee of 10 bps
on each leg, optional 5 bps flash-loan fee on the sell notional, fixed gas
fee, no flooring of the final value. -/
def calculate_profit (buy_price sell_price amount : Int) (include_flash_loan_fees : Bool) : Int :=
  if buy_price ≤ 0 ∨ sell_price ≤ 0 ∨ amount ≤ 0 ∨ sell_price ≤ buy_price then 0
  else
    let gross_profit := rdiv ((sell_price - buy_price) * amount) 100000000
    let buy_fee := rdiv (rdiv (amount * buy_price) 100000000 * 10) 10000
    let sell_fee := rdiv (rdiv (amount * sell_price) 100000000 * 10) 10000
    let flash_loan_fee :=
      if include_flash_loan_fees then rdiv (rdiv (amount * sell_price) 100000000 * 5) 10000 else 0
    let gas_fee := 100000
    let withdrawal_fee := 0
    gross_profit - (buy_fee + sell_fee + flash_loan_fee + gas_fee + withdrawal_fee)

/-- The bid walk of `estimate_slippage`: accumulate bid amounts until the
cumulative amount reaches the trade size, returning the price of the level at
which it first does, or `none` when the book never reaches the trade size. -/
def fillPrice (bids : List (Int × Int)) (trade_size cumulative : Int) : Option Int :=
  match bids with
  | [] => none
  | (price, amount) :: rest =>
    if trade_size ≤ cumulative + amount then some price
    else fillPrice rest trade_size (cumulative + amount)

/-- Book-based branch of `estimate_slippage`: slippage in bps from the best
bid to the fill level, capped at 1000; 500 when the book cannot fill the size. -/
def book_slippage (bids : List (Int × Int)) (best_price trade_size : Int) : Int :=
  match fillPrice bids trade_size 0 with
  | none => 500
  | some price =>
    min (if 0 < best_price then rdiv ((best_price - price) * 10000) best_price else 0) 1000

/-- Fallback branch of `estimate_slippage` when no order book data is available:
base slippage plus a size component, capped at 1000 bps. -/
def fallback_slippage (trade_size : Int) : Int :=
  min (5 + rdiv trade_size 10000000000 * 3) 1000

/-- Embeds `ArbitrageDetector::estimate_slippage`
(src/contracts/src/arbitrage_detector.rs, lines 173-233). -/
def estimate_slippage (E : ScanEnv) (exchange asset : String) (trade_size : Int) : Int :=
  if exchange ≠ "Stellar DEX" then -1
  else if trade_size ≤ 0 then 0
  else
    match E.orderBook exchange (format_pair_string asset "USD") with
    | some ob =>
      match ob.asks, ob.bids with
      | _ :: _, (bp, ba) :: rest => book_slippage ((bp, ba) :: rest) bp trade_size
      | _, _ => fallback_slippage trade_size
    | none => fallback_slippage trade_size

/-- Per-asset body of the `scan_opportunities` loop
(src/contracts/src/arbitrage_detector.rs, lines 43-115): at most one
opportunity per asset. -/
def scan_asset (E : ScanEnv) (min_profit : Int) (asset : String) : Option ArbitrageOpportunity :=
  match E.oraclePrice asset with
  | none => none
  | some od =>
    match E.marketPrice "Stellar DEX" (format_pair_string asset "USD") with
    | none => none
    | some mp =>
      if ReflectorOracleClient.validate_price_deviation mp.price od.price 500 then
        let trade_amount : Int := 10000000000
        let slippage_bps := estimate_slippage E "Stellar DEX" asset trade_amount
        let adjusted_sell_price := rdiv (mp.price * (10000 - slippage_bps)) 10000
        let profit := calculate_profit mp.price adjusted_sell_price trade_amount true
        if min_profit ≤ profit then
          let price_deviation_bps := rdiv (|mp.price - od.price| * 10000) od.price
          some { asset := asset
                 buy_exchange := "Stellar DEX"
                 sell_exchange := "Stellar DEX"
                 buy_price := mp.price
                 sell_price := adjusted_sell_price
                 available_amount := trade_amount
                 estimated_profit := profit
                 confidence_score := min (100 - price_deviation_bps) 100
                 expiry_time := E.now + 30 }
        else none
      else none

/-- Embeds `ArbitrageDetector::scan_opportunities`
(src/contracts/src/arbitrage_detector.rs, lines 39-118). -/
def scan_opportunities (E : ScanEnv) (assets : List String) (min_profit : Int) :
    List ArbitrageOpportunity :=
  assets.filterMap (scan_asset E min_profit)

end ArbitrageDetector

namespace ArbitrageDetectorCrate

/-- Fee record from src/contracts/arbitrage_detector/src/lib.rs. -/
structure TradingFees where
  maker_fee_bps : Int
  taker_fee_bps : Int
  withdrawal_fee : Int
  gas_fee : Int
  flash_loan_fee_bps : Int
deriving DecidableEq, Repr

/-- Embeds `ArbitrageDetector::calculate_profit` from
src/contracts/arbitrage_detector/src/lib.rs (lines 164-201): the generation
that takes an explicit fee record and floors the result at 0. -/
def calculate_profit (buy_price sell_price amount : Int) (fees : TradingFees) : Int :=
  if buy_price ≤ 0 ∨ sell_price ≤ 0 ∨ amount ≤ 0 ∨ sell_price ≤ buy_price then 0
  else
    let gross_profit := rdiv ((sell_price - buy_price) * amount) 100000000
    let buy_fee := rdiv (rdiv (amount * buy_price) 100000000 * fees.taker_fee_bps) 10000
    let sell_fee := rdiv (rdiv (amount * sell_price) 100000000 * fees.taker_fee_bps) 10000
    let flash_loan_fee := rdiv (rdiv (amount * sell_price) 100000000 * fees.flash_loan_fee_bps) 10000
    max (gross_profit - (buy_fee + sell_fee + flash_loan_fee + fees.gas_fee + fees.withdrawal_fee)) 0

end ArbitrageDetectorCrate

/-- C9: `validate_price_deviation` is guarded against a zero reference price:
for every current price and every deviation bound, a zero reference price
makes the validation return `false` before any division happens. -/
theorem validate_price_deviation_zero_reference (current_price max_deviation_bps : Int) :
    ReflectorOracleClient.validate_price_deviation current_price 0 max_deviation_bps = false := by
  simp [ReflectorOracleClient.validate_price_deviation]

/-- C10: for every environment, asset and positive trade size, calling
`estimate_slippage` with an exchange other than "Stellar DEX" returns the
sentinel -1 without consulting the order book (the result is independent of
the environment). -/
theorem estimate_slippage_invalid_exchange (E : ArbitrageDetector.ScanEnv)
    (exchange asset : String) (trade_size : Int)
    (hex : exchange ≠ "Stellar DEX") (hts : 0 < trade_size) :
    ArbitrageDetector.estimate_slippage E exchange asset trade_size = -1 := by
  simp [ArbitrageDetector.estimate_slippage, hex]

/-- Environment with a populated order book, used to evaluate the detector at
concrete inputs. -/
def envC10 : ArbitrageDetector.ScanEnv :=
  { now := 0
    oraclePrice := fun _ => none
    marketPrice := fun _ _ => none
    orderBook := fun _ _ =>
      some { bids := [(100000000, 20000000000)], asks := [(100000000, 20000000000)] } }

/-- Witness for C10 at exchange "Binance" and trade size 10000000000. -/
theorem estimate_slippage_invalid_exchange_witness :
    ArbitrageDetector.estimate_slippage envC10 "Binance" "XLM" 10000000000 = -1 :=
  estimate_slippage_invalid_exchange envC10 "Binance" "XLM" 10000000000 (by decide) (by decide)

/-- C2 counterexample: the `calculate_profit` generation of
src/contracts/src/arbitrage_detector.rs returns a strictly negative value
when the fees exceed the gross profit (buy 1.00000000, sell 1.00000001,
amount 1 unit): the gross profit is 1 stroop and the fees are 350000. -/
theorem calculate_profit_negative_counterexample :
    ArbitrageDetector.calculate_profit 100000000 100000001 100000000 true < 0 := by
  decide

/-- C2 (amended): the `calculate_profit` generation that takes an explicit
`TradingFees` record (src/contracts/arbitrage_detector/src/lib.rs) never
returns a negative value, for every input. -/
theorem calculate_profit_crate_nonneg (buy_price sell_price amount : Int)
    (fees : ArbitrageDetectorCrate.TradingFees) :
    0 ≤ ArbitrageDetectorCrate.calculate_profit buy_price sell_price amount fees := by
  unfold ArbitrageDetectorCrate.calculate_profit
  split
  · exact le_refl 0
  · exact le_max_right _ _

namespace ArbitrageDetector

/-- Truncating division is monotone in the numerator when the numerators are
non-negative and the denominator is positive. -/
theorem rdiv_le_rdiv_of_le {a b c : Int} (ha : 0 ≤ a) (hab : a ≤ b) (hc : 0 < c) :
    rdiv a c ≤ rdiv b c := by
  unfold rdiv
  rw [Int.tdiv_eq_ediv ha hc.le, Int.tdiv_eq_ediv (ha.trans hab) hc.le]
  exact Int.ediv_le_ediv hc hab

/-- The fill price returned by the bid walk is the price of one of the bid levels. -/
theorem fillPrice_mem {bids : List (Int × Int)} {ts c p : Int}
    (h : fillPrice bids ts c = some p) : p ∈ bids.map Prod.fst := by
  induction bids generalizing c with
  | nil => simp [fillPrice] at h
  | cons hd tl ih =>
    rw [fillPrice] at h
    split at h
    · simp_all
    · simpa using Or.inr (ih h)

/-- For a smaller trade size the bid walk fills at the same level or an earlier
one; with bids sorted by non-increasing price the earlier fill price is at
least the later one. -/
theorem fillPrice_mono {bids : List (Int × Int)}
    (hs : List.Pairwise (fun x y : Int × Int => y.1 ≤ x.1) bids)
    {s1 s2 c p2 : Int} (h12 : s1 ≤ s2) (h2 : fillPrice bids s2 c = some p2) :
    ∃ p1, fillPrice bids s1 c = some p1 ∧ p2 ≤ p1 := by
  induction bids generalizing c with
  | nil => simp [fillPrice] at h2
  | cons hd tl ih =>
    rw [fillPrice] at h2
    rw [List.pairwise_cons] at hs
    split at h2
    · rename_i hle
      refine ⟨hd.1, ?_, by simp_all⟩
      rw [fillPrice, if_pos (le_trans h12 hle)]
    · rename_i hnle
      by_cases h1 : s1 ≤ c + hd.2
      · refine ⟨hd.1, ?_, ?_⟩
        · rw [fillPrice, if_pos h1]
        · have hmem := fillPrice_mem h2
          simp only [List.mem_map] at hmem
          obtain ⟨q, hq, hqe⟩ := hmem
          exact hqe ▸ hs.1 q hq
      · obtain ⟨p1, hp1, hple⟩ := ih hs.2 h2
        exact ⟨p1, by rw [fillPrice, if_neg h1]; exact hp1, hple⟩

/-- When every cumulative prefix of the bid amounts stays below the trade
size, the bid walk never fills. -/
theorem fillPrice_none_of_shallow {bids : List (Int × Int)} {ts c : Int}
    (h : ∀ k : Nat, c + ((bids.take k).map Prod.snd).sum < ts) :
    fillPrice bids ts c = none := by
  induction bids generalizing c with
  | nil => rfl
  | cons hd tl ih =>
    rw [fillPrice]
    have h1 := h 1
    simp only [List.take_succ_cons, List.take_zero, List.map_cons, List.map_nil,
      List.sum_cons, List.sum_nil, add_zero] at h1
    rw [if_neg (not_le.mpr h1)]
    refine ih fun k => ?_
    have hk := h (k + 1)
    simp only [List.take_succ_cons, List.map_cons, List.sum_cons] at hk
    linarith

end ArbitrageDetector

namespace ArbitrageDetector

/-- Every opportunity built by the per-asset scan body carries a profit that
passed the minimum-profit gate, a confidence score capped at 100 from above,
and a profit equal to the fee-adjusted profit of its own price pair. -/
theorem scan_asset_some {E : ScanEnv} {m : Int} {a : String} {o : ArbitrageOpportunity}
    (h : scan_asset E m a = some o) :
    m ≤ o.estimated_profit ∧ o.confidence_score ≤ 100 ∧
      o.estimated_profit = calculate_profit o.buy_price o.sell_price 10000000000 true := by
  unfold scan_asset at h
  cases ho : E.oraclePrice a with
  | none => rw [ho] at h; exact absurd h (by simp)
  | some od =>
    rw [ho] at h
    cases hm : E.marketPrice "Stellar DEX" (format_pair_string a "USD") with
    | none => rw [hm] at h; exact absurd h (by simp)
    | some mp =>
      rw [hm] at h
      simp only at h
      split at h
      · split at h
        · rename_i hprofit
          obtain rfl := Option.some.inj h
          exact ⟨hprofit, min_le_right _ _, rfl⟩
        · exact absurd h (by simp)
      · exact absurd h (by simp)

/-- A strictly positive fee-adjusted profit is only produced when the sell
price strictly exceeds the buy price (otherwise `calculate_profit` returns 0). -/
theorem calculate_profit_pos_buy_lt_sell {b s a : Int} {f : Bool}
    (h : 0 < calculate_profit b s a f) : b < s := by
  unfold calculate_profit at h
  split at h
  · exact absurd h (by simp)
  · rename_i hg
    push_neg at hg
    exact hg.2.2.2

end ArbitrageDetector

/-- C4 (amended): every opportunity returned by `scan_opportunities` has
`estimated_profit ≥ min_profit` and `confidence_score ≤ 100`; the lower bound
0 on the confidence score does not hold in the code. -/
theorem scan_opportunities_profit_confidence (E : ArbitrageDetector.ScanEnv)
    (assets : List String) (min_profit : Int) (o : ArbitrageDetector.ArbitrageOpportunity)
    (h : o ∈ ArbitrageDetector.scan_opportunities E assets min_profit) :
    min_profit ≤ o.estimated_profit ∧ o.confidence_score ≤ 100 := by
  obtain ⟨a, -, ha⟩ := List.mem_filterMap.mp h
  obtain ⟨h1, h2, -⟩ := ArbitrageDetector.scan_asset_some ha
  exact ⟨h1, h2⟩

/-- C5 (amended): when the caller's `min_profit` is strictly positive, every
opportunity returned by `scan_opportunities` has a sell price strictly above
its buy price; with `min_profit ≤ 0` the scan can emit an opportunity whose
sell price does not exceed its buy price. -/
theorem scan_opportunities_sell_gt_buy (E : ArbitrageDetector.ScanEnv)
    (assets : List String) (min_profit : Int) (o : ArbitrageDetector.ArbitrageOpportunity)
    (hmp : 0 < min_profit)
    (h : o ∈ ArbitrageDetector.scan_opportunities E assets min_profit) :
    o.buy_price < o.sell_price := by
  obtain ⟨a, -, ha⟩ := List.mem_filterMap.mp h
  obtain ⟨h1, -, h3⟩ := ArbitrageDetector.scan_asset_some ha
  exact ArbitrageDetector.calculate_profit_pos_buy_lt_sell (h3 ▸ lt_of_lt_of_le hmp h1)

/-- Environment in which the venue price (1.04) deviates from the oracle
price (1.00) by 400 bps: within the 500 bps validation bound, but far enough
that the confidence score 100 - 400 is negative. -/
def envC4 : ArbitrageDetector.ScanEnv :=
  { now := 0
    oraclePrice := fun _ =>
      some { asset := "XLM", price := 100000000, volume_24h := 0, timestamp := 0,
             source := "Stellar DEX", confidence := 95 }
    marketPrice := fun _ _ => some { price := 104000000, timestamp := 0 }
    orderBook := fun _ _ => none }

/-- C4 counterexample: with a 400 bps venue/oracle deviation (which passes the
500 bps validation) and `min_profit = 0`, the scan emits an opportunity whose
confidence score is -300, outside [0, 100]. -/
theorem scan_confidence_negative_counterexample :
    (ArbitrageDetector.scan_opportunities envC4 ["XLM"] 0).map
        ArbitrageDetector.ArbitrageOpportunity.confidence_score = [-300] ∧
      (-300 : Int) < 0 := by
  constructor
  · rfl
  · decide

/-- Environment with equal venue and oracle prices and no order book data,
so the scan's slippage-adjusted sell price sits strictly below the buy price. -/
def envC5 : ArbitrageDetector.ScanEnv :=
  { now := 0
    oraclePrice := fun _ =>
      some { asset := "XLM", price := 100000000, volume_24h := 0, timestamp := 0,
             source := "Stellar DEX", confidence := 95 }
    marketPrice := fun _ _ => some { price := 100000000, timestamp := 0 }
    orderBook := fun _ _ => none }

/-- C5 counterexample: with `min_profit = 0` the scan emits an opportunity
whose sell price (0.99920000, the slippage-reduced venue price) is strictly
below its buy price (1.00000000). -/
theorem scan_sell_not_gt_buy_counterexample :
    (ArbitrageDetector.scan_opportunities envC5 ["XLM"] 0).map
        (fun o => (o.buy_price, o.sell_price)) = [(100000000, 99920000)] ∧
      (99920000 : Int) < 100000000 := by
  constructor
  · rfl
  · decide

/-- C4 witness environment: equal venue and oracle prices, no book data. -/
def envC4w : ArbitrageDetector.ScanEnv := envC5

/-- The opportunity emitted by the scan over `envC4w` at `min_profit = 0`. -/
def oC4w : ArbitrageDetector.ArbitrageOpportunity :=
  { asset := "XLM", buy_exchange := "Stellar DEX", sell_exchange := "Stellar DEX",
    buy_price := 100000000, sell_price := 99920000, available_amount := 10000000000,
    estimated_profit := 0, confidence_score := 100, expiry_time := 30 }

/-- Witness for C4 (amended) on a concrete emitted opportunity. -/
theorem scan_opportunities_profit_confidence_witness :
    (0 : Int) ≤ oC4w.estimated_profit ∧ oC4w.confidence_score ≤ 100 :=
  scan_opportunities_profit_confidence envC4w ["XLM"] 0 oC4w (by constructor)

/-- C5 witness environment: a book whose second bid level is priced above the
best bid makes the book slippage negative, so the adjusted sell price rises
above the buy price and a strictly positive profit is emitted. -/
def envC5w : ArbitrageDetector.ScanEnv :=
  { now := 0
    oraclePrice := fun _ =>
      some { asset := "XLM", price := 100000000, volume_24h := 0, timestamp := 0,
             source := "Stellar DEX", confidence := 95 }
    marketPrice := fun _ _ => some { price := 100000000, timestamp := 0 }
    orderBook := fun _ _ =>
      some { bids := [(100000000, 5000000000), (200000000, 10000000000)],
             asks := [(100000000, 1000000000)] } }

/-- The opportunity emitted by the scan over `envC5w` at `min_profit = 1000000`. -/
def oC5w : ArbitrageDetector.ArbitrageOpportunity :=
  { asset := "XLM", buy_exchange := "Stellar DEX", sell_exchange := "Stellar DEX",
    buy_price := 100000000, sell_price := 200000000, available_amount := 10000000000,
    estimated_profit := 9959900000, confidence_score := 100, expiry_time := 30 }

/-- Witness for C5 (amended) on a concrete emitted opportunity. -/
theorem scan_opportunities_sell_gt_buy_witness : oC5w.buy_price < oC5w.sell_price :=
  scan_opportunities_sell_gt_buy envC5w ["XLM"] 1000000 oC5w (by decide) (by constructor)

/-- C6 (amended): for a fixed order book with at least one ask and with bid
prices sorted in non-increasing order, `estimate_slippage` is monotonically
non-decreasing over the positive trade sizes that the book can fill; the
original claim fails across the fillable/insufficient-liquidity boundary,
where a fillable size can be charged a capped slippage of up to 1000 bps
while a larger unfillable size receives the fixed 500 bps penalty. -/
theorem estimate_slippage_mono_fillable (E : ArbitrageDetector.ScanEnv) (asset : String)
    (ob : ArbitrageDetector.OrderBook) (bp ba : Int) (rest : List (Int × Int))
    (s1 s2 p2 : Int)
    (hob : E.orderBook "Stellar DEX" (ArbitrageDetector.format_pair_string asset "USD") = some ob)
    (hasks : ob.asks ≠ [])
    (hbids : ob.bids = (bp, ba) :: rest)
    (hsorted : List.Pairwise (fun x y : Int × Int => y.1 ≤ x.1) ob.bids)
    (hs1 : 0 < s1) (h12 : s1 ≤ s2)
    (hfill : ArbitrageDetector.fillPrice ob.bids s2 0 = some p2) :
    ArbitrageDetector.estimate_slippage E "Stellar DEX" asset s1 ≤
      ArbitrageDetector.estimate_slippage E "Stellar DEX" asset s2 := by
  obtain ⟨p1, hfill1, hp21⟩ := ArbitrageDetector.fillPrice_mono hsorted h12 hfill
  have hs2 : 0 < s2 := lt_of_lt_of_le hs1 h12
  have hp1bp : p1 ≤ bp := by
    have hmem := ArbitrageDetector.fillPrice_mem hfill1
    rw [hbids] at hmem hsorted
    rw [List.pairwise_cons] at hsorted
    simp only [List.map_cons, List.mem_cons, List.mem_map] at hmem
    rcases hmem with h | ⟨q, hq, hqe⟩
    · exact le_of_eq h
    · exact hqe ▸ hsorted.1 q hq
  have hne : ¬ ("Stellar DEX" ≠ "Stellar DEX") := by simp
  obtain ⟨ahd, atl, hc⟩ : ∃ ahd atl, ob.asks = ahd :: atl := by
    cases hasks' : ob.asks with
    | nil => exact absurd hasks' hasks
    | cons h t => exact ⟨h, t, rfl⟩
  have heval : ∀ s : Int, 0 < s →
      ArbitrageDetector.estimate_slippage E "Stellar DEX" asset s =
        ArbitrageDetector.book_slippage ((bp, ba) :: rest) bp s := by
    intro s hs
    unfold ArbitrageDetector.estimate_slippage
    rw [if_neg hne, if_neg (not_le.mpr hs)]
    simp only [hob, hc, hbids]
  rw [heval s1 hs1, heval s2 hs2]
  unfold ArbitrageDetector.book_slippage
  rw [hbids] at hfill1 hfill
  rw [hfill1, hfill]
  show (if 0 < bp then rdiv ((bp - p1) * 10000) bp else 0) ⊓ 1000 ≤
    (if 0 < bp then rdiv ((bp - p2) * 10000) bp else 0) ⊓ 1000
  by_cases hbp : 0 < bp
  · rw [if_pos hbp, if_pos hbp]
    refine min_le_min ?_ le_rfl
    refine ArbitrageDetector.rdiv_le_rdiv_of_le ?_ ?_ hbp
    · have : 0 ≤ bp - p1 := sub_nonneg.mpr hp1bp
      positivity
    · have : bp - p1 ≤ bp - p2 := by linarith
      nlinarith
  · rw [if_neg hbp, if_neg hbp]

/-- Order book whose deep second bid level forces the capped 1000 bps
slippage at a fillable size, while a larger unfillable size receives only the
fixed 500 bps penalty. -/
def envC6 : ArbitrageDetector.ScanEnv :=
  { now := 0
    oraclePrice := fun _ => none
    marketPrice := fun _ _ => none
    orderBook := fun _ _ =>
      some { bids := [(10000, 5), (1000, 5)], asks := [(10000, 5)] } }

/-- C6 counterexample: on a fixed book (best bid 10000, second level 1000,
cumulative depth 10), trade size 6 is fillable and receives the capped 1000
bps slippage, while the larger trade size 11 exceeds the depth and receives
only 500 bps: slippage is not monotone in trade size. -/
theorem estimate_slippage_not_mono_counterexample :
    (0 : Int) < 6 ∧ (6 : Int) ≤ 11 ∧
      ArbitrageDetector.estimate_slippage envC6 "Stellar DEX" "XLM" 11 <
        ArbitrageDetector.estimate_slippage envC6 "Stellar DEX" "XLM" 6 := by
  refine ⟨by decide, by decide, ?_⟩
  show (500 : Int) < 1000
  decide

/-- Sorted book used to witness the amended monotonicity statement. -/
def envC6w : ArbitrageDetector.ScanEnv :=
  { now := 0
    oraclePrice := fun _ => none
    marketPrice := fun _ _ => none
    orderBook := fun _ _ =>
      some { bids := [(100, 5), (90, 10)], asks := [(100, 5)] } }

/-- The book stored in `envC6w`. -/
def obC6w : ArbitrageDetector.OrderBook :=
  { bids := [(100, 5), (90, 10)], asks := [(100, 5)] }

/-- Witness for C6 (amended): on the sorted book of `envC6w`, trade size 3
(slippage 0) and fillable trade size 8 (slippage 1000 bps capped from the
drop to the 90 level) are ordered as the theorem states. -/
theorem estimate_slippage_mono_fillable_witness :
    ArbitrageDetector.estimate_slippage envC6w "Stellar DEX" "XLM" 3 ≤
      ArbitrageDetector.estimate_slippage envC6w "Stellar DEX" "XLM" 8 :=
  estimate_slippage_mono_fillable envC6w "XLM" obC6w 100 5 [(90, 10)] 3 8 90
    rfl (by decide) rfl (by decide) (by decide) (by decide) rfl

/-- C7 (amended): for every order book that has at least one bid and at least
one ask but whose cumulative bid depth never reaches the requested trade
size, `estimate_slippage` returns exactly the fixed 500 bps
insufficient-liquidity penalty; a book with no bid levels at all instead
takes the linear no-data fallback. -/
theorem estimate_slippage_insufficient_depth (E : ArbitrageDetector.ScanEnv) (asset : String)
    (ob : ArbitrageDetector.OrderBook) (bp ba : Int) (rest : List (Int × Int))
    (trade_size : Int) (hts : 0 < trade_size)
    (hob : E.orderBook "Stellar DEX" (ArbitrageDetector.format_pair_string asset "USD") = some ob)
    (hasks : ob.asks ≠ [])
    (hbids : ob.bids = (bp, ba) :: rest)
    (hdepth : ∀ k : Nat, ((ob.bids.take k).map Prod.snd).sum < trade_size) :
    ArbitrageDetector.estimate_slippage E "Stellar DEX" asset trade_size = 500 := by
  have hnone : ArbitrageDetector.fillPrice ob.bids trade_size 0 = none :=
    ArbitrageDetector.fillPrice_none_of_shallow (fun k => by
      have := hdepth k
      linarith)
  obtain ⟨ahd, atl, hc⟩ : ∃ ahd atl, ob.asks = ahd :: atl := by
    cases hasks' : ob.asks with
    | nil => exact absurd hasks' hasks
    | cons h t => exact ⟨h, t, rfl⟩
  have hne : ¬ ("Stellar DEX" ≠ "Stellar DEX") := by simp
  unfold ArbitrageDetector.estimate_slippage
  rw [if_neg hne, if_neg (not_le.mpr hts)]
  simp only [hob, hc, hbids]
  unfold ArbitrageDetector.book_slippage
  rw [← hbids, hnone]

/-- Order book with asks but no bid levels at all. -/
def envC7 : ArbitrageDetector.ScanEnv :=
  { now := 0
    oraclePrice := fun _ => none
    marketPrice := fun _ _ => none
    orderBook := fun _ _ => some { bids := [], asks := [(100000000, 20000000000)] } }

/-- C7 counterexample: for a book with no bid levels at all (cumulative bid
depth 0, which never reaches the trade size 10000000000), `estimate_slippage`
returns the linear fallback value 8, not the 500 bps penalty. -/
theorem estimate_slippage_no_bids_counterexample :
    ArbitrageDetector.estimate_slippage envC7 "Stellar DEX" "XLM" 10000000000 = 8 ∧
      (8 : Int) ≠ 500 := by
  exact ⟨rfl, by decide⟩

/-- Book with one shallow bid level, unable to fill the scenario trade size. -/
def envC7w : ArbitrageDetector.ScanEnv :=
  { now := 0
    oraclePrice := fun _ => none
    marketPrice := fun _ _ => none
    orderBook := fun _ _ => some { bids := [(100000000, 1)], asks := [(100000000, 1)] } }

/-- The book stored in `envC7w`. -/
def obC7w : ArbitrageDetector.OrderBook :=
  { bids := [(100000000, 1)], asks := [(100000000, 1)] }

/-- Witness for C7 (amended): the one-bid book with depth 1 cannot fill trade
size 10000000000, and the slippage is exactly 500 bps. -/
theorem estimate_slippage_insufficient_depth_witness :
    ArbitrageDetector.estimate_slippage envC7w "Stellar DEX" "XLM" 10000000000 = 500 :=
  estimate_slippage_insufficient_depth envC7w "XLM" obC7w 100000000 1 [] 10000000000
    (by decide) rfl (by decide) rfl
    (fun k => by
      cases k with
      | zero => decide
      | succ n => simp [obC7w, List.take_succ_cons])

namespace FlashArbitrageEngine

/-- Trading error taxonomy from src/contracts/src/trading_execution_engine.rs. -/
inductive TradingError where
  | InsufficientBalance
  | PriceLimitExceeded
  | DeadlineExceeded
  | ExchangeUnavailable
  | InsufficientLiquidity
  | SlippageTooHigh
  | InvalidOrderType
deriving DecidableEq, Repr

/-- Trade result record from src/contracts/src/trading_execution_engine.rs. -/
structure TradeResult where
  success : Bool
  executed_amount : Int
  average_price : Int
  fees_paid : Int
  timestamp : Nat
  error_message : String
deriving DecidableEq, Repr

/-- Error taxonomy from src/contracts/src/flash_loan_arbitrage_engine.rs. -/
inductive FlashLoanError where
  | InsufficientProfit
  | DeadlineExceeded
  | FlashLoanFailed
  | TradeExecutionFailed
  | RepaymentFailed
  | InvalidParameters
deriving DecidableEq, Repr

/-- Parameter record of `FlashArbitrageEngine::execute_flash_loan`. -/
structure FlashLoanParameters where
  asset : String
  amount : Int
  buy_exchange : String
  sell_exchange : String
  min_profit : Int
  deadline : Nat
  flash_loan_provider : String
deriving DecidableEq, Repr

/-- Result record of `FlashArbitrageEngine::execute_flash_loan`. -/
structure ArbitrageResult where
  success : Bool
  profit : Int
  gas_used : Int
  error_message : String
deriving DecidableEq, Repr

/-- Environment of external collaborator calls made by the engine: market
prices per (exchange, pair) from `ExchangeInterface::get_market_price_direct`
and the outcomes of `TradingEngine::execute_buy_order` /
`execute_sell_order` (arguments: asset, exchange, amount, price limit).  The
theorems below quantify over every such environment, so they hold for every
behaviour of the trading engine. -/
structure EngineEnv where
  now : Nat
  marketPrice : String → String → Option ArbitrageDetector.MarketPrice
  buyOrder : String → String → Int → Int → Except TradingError TradeResult
  sellOrder : String → String → Int → Int → Except TradingError TradeResult

/-- The XycLoans provider address accepted by parameter validation. -/
def xycloans_address : String := "CB75LG2KULDDIFL2BBZHIBXDPXELJJFWRRHKJZ2H5JF7C4DT6GHW4PJQ"

/-- Embeds `FlashArbitrageEngine::validate_arbitrage_parameters`
(src/contracts/src/flash_loan_arbitrage_engine.rs, lines 136-180): the
byte-prefix comparison against "Stellar DEX" is a string prefix check. -/
def validate_arbitrage_parameters (params : FlashLoanParameters) (current_timestamp : Nat) :
    Except FlashLoanError Unit :=
  if params.deadline < current_timestamp then .error .DeadlineExceeded
  else if params.amount ≤ 0 then .error .InvalidParameters
  else if ¬ ("Stellar DEX".data.isPrefixOf params.buy_exchange.data = true) then
    .error .InvalidParameters
  else if ¬ ("Stellar DEX".data.isPrefixOf params.sell_exchange.data = true) then
    .error .InvalidParameters
  else if params.min_profit < 0 then .error .InvalidParameters
  else if params.flash_loan_provider ≠ xycloans_address then .error .InvalidParameters
  else .ok ()

/-- Embeds `FlashArbitrageEngine::estimate_gas_usage`. -/
def estimate_gas_usage (amount : Int) : Int :=
  min (100000 + rdiv amount 1000000000 * 5 + 50000) 500000

/-- Embeds `FlashArbitrageEngine::calculate_expected_profit_simulated`. -/
def calculate_expected_profit_simulated (amount : Int) : Int :=
  let buy_price : Int := 100000000
  let sell_price : Int := 101000000
  let gross_profit := rdiv ((sell_price - buy_price) * amount) 100000000
  let buy_fee := rdiv (rdiv (amount * buy_price) 100000000 * 10) 10000
  let sell_fee := rdiv (rdiv (amount * sell_price) 100000000 * 10) 10000
  let loan_fee := rdiv (amount * 5) 10000
  gross_profit - (buy_fee + sell_fee + loan_fee + estimate_gas_usage amount)

/-- Embeds `FlashArbitrageEngine::calculate_expected_profit_direct`
(src/contracts/src/flash_loan_arbitrage_engine.rs, lines 229-271). -/
def calculate_expected_profit_direct (E : EngineEnv) (params : FlashLoanParameters) : Int :=
  let pair := ArbitrageDetector.format_pair_string params.asset "USD"
  match E.marketPrice params.buy_exchange pair, E.marketPrice params.sell_exchange pair with
  | some bp, some sp =>
    let gross_profit := rdiv ((sp.price - bp.price) * params.amount) 100000000
    let buy_fee := rdiv (rdiv (params.amount * bp.price) 100000000 * 10) 10000
    let sell_fee := rdiv (rdiv (params.amount * sp.price) 100000000 * 10) 10000
    let loan_fee := rdiv (params.amount * 5) 10000
    gross_profit - (buy_fee + sell_fee + loan_fee + estimate_gas_usage params.amount)
  | _, _ => calculate_expected_profit_simulated params.amount

/-- Embeds `FlashArbitrageEngine::execute_buy_trade_direct`: fetch the market
price, add the fixed 50 bps worst-case slippage, invoke the trading engine. -/
def execute_buy_trade_direct (E : EngineEnv) (asset exchange : String) (amount : Int) :
    Except TradingError TradeResult :=
  match E.marketPrice exchange (ArbitrageDetector.format_pair_string asset "USD") with
  | some mp => E.buyOrder asset exchange amount (rdiv (mp.price * (10000 + 50)) 10000)
  | none => .error .ExchangeUnavailable

/-- Embeds `FlashArbitrageEngine::execute_sell_trade_direct`. -/
def execute_sell_trade_direct (E : EngineEnv) (asset exchange : String) (amount : Int) :
    Except TradingError TradeResult :=
  match E.marketPrice exchange (ArbitrageDetector.format_pair_string asset "USD") with
  | some mp => E.sellOrder asset exchange amount (rdiv (mp.price * (10000 - 50)) 10000)
  | none => .error .ExchangeUnavailable

/-- Error strings used by `handle_trade_failure`. -/
def trading_error_message : TradingError → String
  | .InsufficientBalance => "Insufficient balance for trade"
  | .PriceLimitExceeded => "Price limit exceeded"
  | .DeadlineExceeded => "Trade deadline exceeded"
  | .ExchangeUnavailable => "Exchange unavailable"
  | .InsufficientLiquidity => "Insufficient liquidity"
  | .SlippageTooHigh => "Slippage too high"
  | .InvalidOrderType => "Invalid order type"

/-- Embeds `FlashArbitrageEngine::handle_trade_failure`: a failed leg is
reported as an unsuccessful `ArbitrageResult`, not as an error. -/
def handle_trade_failure (e : TradingError) (trade_type : String) : ArbitrageResult :=
  { success := false, profit := 0, gas_used := 300000,
    error_message := trade_type ++ " trade failed: " ++ trading_error_message e }

/-- Realized net profit recomputed from the actual trade fills, reduced by
the 5 bps flash-loan fee, exactly as lines 109-116 of
src/contracts/src/flash_loan_arbitrage_engine.rs compute it. -/
def realized_net (buy_trade sell_trade : TradeResult) (amount : Int) : Int :=
  rdiv ((sell_trade.average_price - buy_trade.average_price) * amount) 100000000
    - buy_trade.fees_paid - sell_trade.fees_paid - rdiv (amount * 5) 10000

/-- Embeds `FlashArbitrageEngine::execute_flash_loan`
(src/contracts/src/flash_loan_arbitrage_engine.rs, lines 56-133).  The
borrower authentication is a host-side trap and cannot produce a successful
result, so it is not modelled. -/
def execute_flash_loan (E : EngineEnv) (params : FlashLoanParameters) :
    Except FlashLoanError ArbitrageResult :=
  match validate_arbitrage_parameters params E.now with
  | .error e => .error e
  | .ok _ =>
    let expected_profit := calculate_expected_profit_direct E params
    if expected_profit < params.min_profit then .error .InsufficientProfit
    else
      match execute_buy_trade_direct E params.asset params.buy_exchange params.amount with
      | .error e => .ok (handle_trade_failure e "buy")
      | .ok buy_trade =>
        match execute_sell_trade_direct E params.asset params.sell_exchange params.amount with
        | .error e => .ok (handle_trade_failure e "sell")
        | .ok sell_trade =>
          let net_profit := realized_net buy_trade sell_trade params.amount
          if net_profit < params.min_profit then .error .InsufficientProfit
          else .ok { success := true, profit := net_profit, gas_used := 2000000,
                     error_message := "" }

end FlashArbitrageEngine

/-- C1: in every execution of `execute_flash_loan` that reaches the trade
legs (validation passed and the expected-profit gate passed) and in which
both the buy leg and the sell leg returned successfully, if the realized net
profit recomputed from the actual fills and reduced by the flash-loan fee is
below `min_profit`, the call returns the `InsufficientProfit` error and never
a successful `ArbitrageResult`. -/
theorem execute_flash_loan_no_success_on_loss (E : FlashArbitrageEngine.EngineEnv)
    (params : FlashArbitrageEngine.FlashLoanParameters)
    (buy_trade sell_trade : FlashArbitrageEngine.TradeResult)
    (hval : FlashArbitrageEngine.validate_arbitrage_parameters params E.now = .ok ())
    (hexp : params.min_profit ≤ FlashArbitrageEngine.calculate_expected_profit_direct E params)
    (hbuy : FlashArbitrageEngine.execute_buy_trade_direct E params.asset params.buy_exchange
        params.amount = .ok buy_trade)
    (hsell : FlashArbitrageEngine.execute_sell_trade_direct E params.asset params.sell_exchange
        params.amount = .ok sell_trade)
    (hloss : FlashArbitrageEngine.realized_net buy_trade sell_trade params.amount <
        params.min_profit) :
    FlashArbitrageEngine.execute_flash_loan E params =
      .error FlashArbitrageEngine.FlashLoanError.InsufficientProfit := by
  unfold FlashArbitrageEngine.execute_flash_loan
  rw [hval]
  simp only [hbuy, hsell, if_neg (not_lt.mpr hexp), if_pos hloss]

/-- Engine environment for the C1 witness: both venues priced, buy leg fills
at 1.00 and sell leg also fills at 1.00 (no realized spread), so the realized
net profit is negative. -/
def envC1w : FlashArbitrageEngine.EngineEnv :=
  { now := 50
    marketPrice := fun ex _ =>
      if ex = "Stellar DEX" then some { price := 100000000, timestamp := 0 }
      else if ex = "Stellar DEX 2" then some { price := 102000000, timestamp := 0 }
      else none
    buyOrder := fun _ _ _ _ =>
      .ok { success := true, executed_amount := 10000000000, average_price := 100000000,
            fees_paid := 10000000, timestamp := 0, error_message := "" }
    sellOrder := fun _ _ _ _ =>
      .ok { success := true, executed_amount := 10000000000, average_price := 100000000,
            fees_paid := 10000000, timestamp := 0, error_message := "" } }

/-- Parameters for the C1 witness. -/
def paramsC1w : FlashArbitrageEngine.FlashLoanParameters :=
  { asset := "XLM", amount := 10000000000, buy_exchange := "Stellar DEX",
    sell_exchange := "Stellar DEX 2", min_profit := 1000000, deadline := 100,
    flash_loan_provider := "CB75LG2KULDDIFL2BBZHIBXDPXELJJFWRRHKJZ2H5JF7C4DT6GHW4PJQ" }

/-- The buy-leg fill of the C1 witness. -/
def buyTradeC1w : FlashArbitrageEngine.TradeResult :=
  { success := true, executed_amount := 10000000000, average_price := 100000000,
    fees_paid := 10000000, timestamp := 0, error_message := "" }

/-- Witness for C1: both legs fill but the realized net profit is -25000000,
below the min_profit of 1000000, and the call returns `InsufficientProfit`. -/
theorem execute_flash_loan_no_success_on_loss_witness :
    FlashArbitrageEngine.execute_flash_loan envC1w paramsC1w =
      .error FlashArbitrageEngine.FlashLoanError.InsufficientProfit :=
  execute_flash_loan_no_success_on_loss envC1w paramsC1w buyTradeC1w buyTradeC1w
    rfl (by decide) rfl rfl (by decide)

namespace FlashLoanArbitrageEngine

/-- Risk parameter record from src/contracts/flash_loan_arbitrage_engine/src/lib.rs. -/
structure RiskParameters where
  max_position_size : Int
  max_slippage_bps : Int
  min_profit_threshold : Int
  max_gas_price : Int
  emergency_stop : Bool
deriving DecidableEq, Repr

/-- Cumulative metrics record. -/
structure ExecutionMetrics where
  total_trades : Int
  successful_trades : Int
  total_profit : Int
  total_volume : Int
  average_execution_time : Int
  last_execution : Nat
deriving DecidableEq, Repr

/-- Trade request record; contract addresses are modelled as strings. -/
structure ArbitrageTrade where
  buy_exchange : String
  sell_exchange : String
  buy_asset : String
  sell_asset : String
  amount : Int
  expected_profit : Int
  max_slippage_bps : Int
  priority : Int
deriving DecidableEq, Repr

/-- Result record of `execute_flash_loan_arbitrage`. -/
structure FlashLoanResult where
  success : Bool
  profit : Int
  timestamp : Nat
  error_message : String
  gas_used : Int
  trades_executed : Int
  total_volume : Int
deriving DecidableEq, Repr

/-- Error taxonomy from src/contracts/flash_loan_arbitrage_engine/src/lib.rs. -/
inductive FlashLoanError where
  | InvalidFlashLoanProvider
  | InsufficientProfit
  | DeadlineExceeded
  | ArbitrageExecutionFailed
  | RepaymentFailed
  | InvalidParameters
  | RiskLimitExceeded
  | EmergencyStopActivated
  | SlippageTooHigh
  | InsufficientLiquidity
deriving DecidableEq, Repr

/-- Persistent contract storage: the `riskparam`, `execctx`, `result` and
`metrics` keys. -/
structure Storage where
  riskparam : Option RiskParameters
  execctx : Option (List (String × List Int))
  result : Option FlashLoanResult
  metrics : Option ExecutionMetrics
deriving DecidableEq, Repr

/-- Default risk parameters used when none are stored. -/
def default_risk_parameters : RiskParameters :=
  { max_position_size := 10000000000, max_slippage_bps := 100,
    min_profit_threshold := 1000, max_gas_price := 1000000, emergency_stop := false }

/-- Embeds `FlashLoanArbitrageEngine::get_risk_parameters`. -/
def get_risk_parameters (st : Storage) : RiskParameters :=
  st.riskparam.getD default_risk_parameters

/-- Embeds `FlashLoanArbitrageEngine::calculate_dynamic_fee`: base fee 9 bps,
raised with the profit-to-amount ratio, clamped to [5, 15]. -/
def calculate_dynamic_fee (amount expected_profit : Int) : Int :=
  let base_fee : Int := 9
  let profit_bps := rdiv (expected_profit * 10000) amount
  let dynamic_fee := base_fee + min (rdiv profit_bps 1000) 6
  min (max dynamic_fee 5) 15

/-- Embeds `FlashLoanArbitrageEngine::prepare_execution_context`: the trade
count byte and the four low bytes of `min_profit` (two's-complement low byte
of x is x mod 256; the arithmetic right shift is flooring division). -/
def prepare_execution_context (trades : List ArbitrageTrade) (min_profit : Int) :
    List (String × List Int) :=
  [("trades", [(trades.length : Int) % 256]),
   ("params", [min_profit.emod 256, (min_profit.fdiv 256).emod 256,
               (min_profit.fdiv 65536).emod 256, (min_profit.fdiv 16777216).emod 256])]

/-- The trade-validation loop of `execute_flash_loan_arbitrage` (lines
174-183): skip trades whose slippage bound exceeds the risk limit, keep those
with positive expected profit, and accumulate the total expected profit. -/
def validate_trades (risk : RiskParameters) (trades : List ArbitrageTrade) :
    List ArbitrageTrade × Int :=
  trades.foldl
    (fun acc trade =>
      if risk.max_slippage_bps < trade.max_slippage_bps then acc
      else if 0 < trade.expected_profit then (acc.1 ++ [trade], acc.2 + trade.expected_profit)
      else acc)
    ([], 0)

/-- Default metrics used when none are stored. -/
def default_metrics : ExecutionMetrics :=
  { total_trades := 0, successful_trades := 0, total_profit := 0, total_volume := 0,
    average_execution_time := 0, last_execution := 0 }

/-- Embeds `FlashLoanArbitrageEngine::update_execution_metrics`. -/
def update_execution_metrics (st : Storage) (result : FlashLoanResult) : Storage :=
  let m := st.metrics.getD default_metrics
  let m := { m with total_trades := m.total_trades + 1 }
  let m :=
    if result.success then
      { m with successful_trades := m.successful_trades + 1,
               total_profit := m.total_profit + result.profit }
    else m
  let m := { m with total_volume := m.total_volume + result.total_volume,
                    last_execution := result.timestamp,
                    average_execution_time := rdiv (m.average_execution_time + result.gas_used) 2 }
  { st with metrics := some m }

/-- Embeds `FlashLoanArbitrageEngine::execute_flash_loan_arbitrage`
(src/contracts/flash_loan_arbitrage_engine/src/lib.rs, lines 140-238).  The
flash-loan provider is an opaque collaborator receiving the asset, the amount
and the storage (through which its callback may deposit a result); the third
component of the returned triple counts how many provider (external) calls
were made. -/
def execute_flash_loan_arbitrage (st : Storage)
    (provider : String → Int → Storage → Bool × Storage) (now : Nat)
    (asset : String) (amount : Int) (arbitrage_trades : List ArbitrageTrade)
    (min_profit : Int) (deadline : Nat) :
    Except FlashLoanError FlashLoanResult × Storage × Nat :=
  if amount ≤ 0 ∨ min_profit ≤ 0 ∨ deadline ≤ now then (.error .InvalidParameters, st, 0)
  else
    let risk_params := get_risk_parameters st
    if risk_params.emergency_stop then (.error .EmergencyStopActivated, st, 0)
    else if risk_params.max_position_size < amount then (.error .RiskLimitExceeded, st, 0)
    else if min_profit < risk_params.min_profit_threshold then (.error .InsufficientProfit, st, 0)
    else
      let validated := validate_trades risk_params arbitrage_trades
      if validated.2 < min_profit then (.error .InsufficientProfit, st, 0)
      else
        let fee_rate := calculate_dynamic_fee amount validated.2
        let fee := rdiv (amount * fee_rate) 10000
        let ctx := prepare_execution_context validated.1 min_profit
        let st1 := { st with execctx := some ctx }
        let call := provider asset amount st1
        if call.1 then
          let result := call.2.result.getD
            { success := false, profit := 0, timestamp := now,
              error_message := "Execution failed", gas_used := 0,
              trades_executed := 0, total_volume := 0 }
          let st3 := update_execution_metrics call.2 result
          (.ok result, { st3 with execctx := none, result := none }, 1)
        else (.error .RepaymentFailed, call.2, 1)

/-- Embeds `FlashLoanArbitrageEngine::flash_loan_callback`
(src/contracts/flash_loan_arbitrage_engine/src/lib.rs, lines 297-329): the
stored execution context is required, the profit is the simplified
`amount - fee`, and the result is stored for the initiating call. -/
def flash_loan_callback (st : Storage) (now : Nat) (amount fee : Int) :
    Except FlashLoanError Bool × Storage :=
  match st.execctx with
  | none => (.error .ArbitrageExecutionFailed, st)
  | some _ =>
    let profit := amount - fee
    let result : FlashLoanResult :=
      { success := decide (0 < profit), profit := profit, timestamp := now,
        error_message := "", gas_used := 0, trades_executed := 1, total_volume := amount }
    (.ok (decide (0 < profit)), { st with result := some result })

/-- Embeds `FlashLoanArbitrageEngine::calculate_optimal_position_size`
(src/contracts/flash_loan_arbitrage_engine/src/lib.rs, lines 420-439). -/
def calculate_optimal_position_size (st : Storage) (confidence_score risk_tolerance : Int) :
    Int :=
  let risk_params := get_risk_parameters st
  let base_amount := rdiv risk_params.max_position_size 10
  let confidence_multiplier := min (max confidence_score 10) 100
  let confidence_adjusted := rdiv (base_amount * confidence_multiplier) 100
  let risk_multiplier := min (max risk_tolerance 1) 10
  let risk_adjusted := rdiv (confidence_adjusted * risk_multiplier) 5
  min risk_adjusted risk_params.max_position_size

/-- Modelled from the spec: the position-sizing formula of section 4.5,
`base * clamp(confidence,10,100)/100 * clamp(risk_tolerance,1,10)/5` with
`base = max_position_size / 10`, before the cap at `max_position_size`. -/
def size_position_spec (max_position_size confidence risk_tolerance : Int) : Int :=
  rdiv (rdiv (rdiv max_position_size 10 * min (max confidence 10) 100) 100
      * min (max risk_tolerance 1) 10) 5

end FlashLoanArbitrageEngine

/-- C8: for every stored risk parameters, confidence score and risk
tolerance, the position-sizing operation returns the spec formula
`base * clamp(confidence,10,100)/100 * clamp(risk_tolerance,1,10)/5`
(with `base = max_position_size / 10`) capped at `max_position_size`, and the
returned amount never exceeds `max_position_size`. -/
theorem calculate_optimal_position_size_spec (st : FlashLoanArbitrageEngine.Storage)
    (confidence_score risk_tolerance : Int) :
    FlashLoanArbitrageEngine.calculate_optimal_position_size st confidence_score risk_tolerance =
        min (FlashLoanArbitrageEngine.size_position_spec
              (FlashLoanArbitrageEngine.get_risk_parameters st).max_position_size
              confidence_score risk_tolerance)
          (FlashLoanArbitrageEngine.get_risk_parameters st).max_position_size ∧
      FlashLoanArbitrageEngine.calculate_optimal_position_size st confidence_score risk_tolerance ≤
        (FlashLoanArbitrageEngine.get_risk_parameters st).max_position_size := by
  constructor
  · rfl
  · exact min_le_right _ _

/-- C3 (amended): whenever the stored risk parameters have
`emergency_stop = true` and the basic parameter validation passes
(`amount > 0`, `min_profit > 0`, `deadline > now`), every call to
`execute_flash_loan_arbitrage` fails with `EmergencyStopActivated`, leaves the
storage untouched, and performs zero external collaborator calls, for every
possible flash-loan provider; when the basic validation also fails, the call
still makes no external call but fails with `InvalidParameters` instead. -/
theorem execute_flash_loan_arbitrage_emergency_stop (st : FlashLoanArbitrageEngine.Storage)
    (provider : String → Int → FlashLoanArbitrageEngine.Storage →
      Bool × FlashLoanArbitrageEngine.Storage)
    (now : Nat) (asset : String) (amount : Int)
    (arbitrage_trades : List FlashLoanArbitrageEngine.ArbitrageTrade)
    (min_profit : Int) (deadline : Nat)
    (hstop : (FlashLoanArbitrageEngine.get_risk_parameters st).emergency_stop = true)
    (hamount : 0 < amount) (hmin : 0 < min_profit) (hdl : now < deadline) :
    FlashLoanArbitrageEngine.execute_flash_loan_arbitrage st provider now asset amount
        arbitrage_trades min_profit deadline =
      (.error FlashLoanArbitrageEngine.FlashLoanError.EmergencyStopActivated, st, 0) := by
  unfold FlashLoanArbitrageEngine.execute_flash_loan_arbitrage
  rw [if_neg, if_pos hstop]
  push_neg
  exact ⟨hamount, hmin, hdl⟩

/-- Storage with emergency stop engaged, used for the C3 counterexample and
witness. -/
def stC3 : FlashLoanArbitrageEngine.Storage :=
  { riskparam := some { max_position_size := 10000000000, max_slippage_bps := 100,
                        min_profit_threshold := 1000, max_gas_price := 1000000,
                        emergency_stop := true }
    execctx := none, result := none, metrics := none }

/-- A concrete provider (never actually reached in the C3 scenarios). -/
def providerC3 : String → Int → FlashLoanArbitrageEngine.Storage →
    Bool × FlashLoanArbitrageEngine.Storage :=
  fun _ _ s => (true, s)

/-- C3 counterexample: with emergency stop engaged but `amount = 0`, the call
fails with `InvalidParameters`, not `EmergencyStopActivated` — the basic
parameter check runs before the emergency-stop check. -/
theorem execute_flash_loan_arbitrage_emergency_stop_counterexample :
    (FlashLoanArbitrageEngine.get_risk_parameters stC3).emergency_stop = true ∧
      FlashLoanArbitrageEngine.execute_flash_loan_arbitrage stC3 providerC3 0 "XLM" 0 []
          1000000 100 =
        (.error FlashLoanArbitrageEngine.FlashLoanError.InvalidParameters, stC3, 0) ∧
      FlashLoanArbitrageEngine.FlashLoanError.InvalidParameters ≠
        FlashLoanArbitrageEngine.FlashLoanError.EmergencyStopActivated := by
  refine ⟨rfl, rfl, by decide⟩

/-- Witness for C3 (amended): with valid basic parameters and emergency stop
engaged, the call returns `EmergencyStopActivated` with zero external calls. -/
theorem execute_flash_loan_arbitrage_emergency_stop_witness :
    FlashLoanArbitrageEngine.execute_flash_loan_arbitrage stC3 providerC3 0 "XLM" 100 []
        1000000 100 =
      (.error FlashLoanArbitrageEngine.FlashLoanError.EmergencyStopActivated, stC3, 0) :=
  execute_flash_loan_arbitrage_emergency_stop stC3 providerC3 0 "XLM" 100 [] 1000000 100
    rfl (by decide) (by decide) (by decide)
